import Mathlib

/-!
Shallow embedding of the Dendrite core (crates/dendrite_core) in Lean 4.

Conventions of the embedding:
* All wall-clock reads (Utc::now()) in the Rust source are made explicit
  `now : Int` parameters, measured in milliseconds since the Unix epoch.
  Calendar dates (chrono NaiveDate) are modelled as day numbers since the
  Unix epoch (an Int); subtracting two dates yields the day difference,
  exactly as NaiveDate subtraction followed by num_days.
* Rust u64 / u32 values are Nat with explicit reduction modulo 2^64 / 2^32
  at the operations where the source performs machine arithmetic
  (release-mode wrapping semantics).
* The cast pattern `(a - b).num_milliseconds() as u64` is modelled by
  `asU64 (a - b)`: the two's-complement reinterpretation of the signed
  difference.
* Rust HashMap<String, u64> is modelled as an association list kept in
  insertion order; HashMap iteration order in the source is unspecified,
  which is exactly what the list order makes observable.
* Floating point (f32 active_percentage) is modelled exactly over Rat;
  rounding of f32 arithmetic is not modelled (no claim depends on it).
-/

namespace Dendrite

/-- Two's-complement reinterpretation of a signed value as u64,
modelling the Rust cast `as u64` on an i64 quantity. -/
def asU64 (v : Int) : Nat := (v % (2 ^ 64 : Int)).toNat

/-- SessionState from session.rs: the four lifecycle states of a session. -/
inductive SessionState where
  | Active
  | Idle
  | Paused
  | Ended
deriving DecidableEq

/-- IdlePeriod from session.rs: a gap in activity during a session. -/
structure IdlePeriod where
  started_at : Int
  ended_at : Option Int
  duration_ms : Nat
deriving DecidableEq

/-- IdlePeriod::new. -/
def IdlePeriod.new (started_at : Int) : IdlePeriod :=
  { started_at := started_at, ended_at := none, duration_ms := 0 }

/-- IdlePeriod::end — closes the period and computes its duration
(`(ended_at - self.started_at).num_milliseconds() as u64`). -/
def IdlePeriod.end' (p : IdlePeriod) (ended_at : Int) : IdlePeriod :=
  { p with ended_at := some ended_at, duration_ms := asU64 (ended_at - p.started_at) }

/-- CommitRef from session.rs: reference to a git commit made during a session. -/
structure CommitRef where
  hash : String
  short_hash : String
  message : String
  timestamp : Int
  files_changed : List String
deriving DecidableEq

/-- CommitRef::new — the short hash is the first 7 characters of the hash. -/
def CommitRef.new (hash message : String) (timestamp : Int)
    (files_changed : List String) : CommitRef :=
  { hash := hash, short_hash := (hash.toList.take 7).asString, message := message,
    timestamp := timestamp, files_changed := files_changed }

/-- Session from session.rs: a tracked period of focused work.  The three
fields marked #[serde(skip)] in the source (state, last_activity,
current_idle) are transient call-boundary state. -/
structure Session where
  id : Nat
  started_at : Int
  ended_at : Option Int
  active_time_ms : Nat
  keystroke_count : Nat
  files_edited : List String
  languages : List (String × Nat)
  idle_periods : List IdlePeriod
  commits : List CommitRef
  state : SessionState
  last_activity : Int
  current_idle : Option IdlePeriod
deriving DecidableEq

/-- Session::new — a fresh Active session with both timestamps at `now`. -/
def Session.new (id : Nat) (now : Int) : Session :=
  { id := id, started_at := now, ended_at := none, active_time_ms := 0,
    keystroke_count := 0, files_edited := [], languages := [],
    idle_periods := [], commits := [], state := SessionState.Active,
    last_activity := now, current_idle := none }

/-- Session::update_activity_time (private helper): while Active, credits the
elapsed gap since last_activity to active_time_ms when the gap (as u64) is
under 5000 ms, and always refreshes last_activity. -/
def Session.update_activity_time (s : Session) (now : Int) : Session :=
  if s.state = SessionState.Active then
    let delta : Nat := asU64 (now - s.last_activity)
    { s with
      active_time_ms :=
        if delta < 5000 then (s.active_time_ms + delta) % 2 ^ 64 else s.active_time_ms,
      last_activity := now }
  else s

/-- Session::record_keystroke — increments the keystroke counter (u32)
and updates the activity clock. -/
def Session.record_keystroke (s : Session) (now : Int) : Session :=
  Session.update_activity_time { s with keystroke_count := (s.keystroke_count + 1) % 2 ^ 32 } now

/-- Association-list version of HashMap entry(k).or_insert(0) += v: the value
at the key is increased in place (u64 arithmetic), a missing key is inserted
at the end. -/
def entryAdd : List (String × Nat) → String → Nat → List (String × Nat)
  | [], k, v => [(k, v)]
  | (k', v') :: t, k, v =>
      if k' = k then (k', (v' + v) % 2 ^ 64) :: t else (k', v') :: entryAdd t k v

/-- Session::record_file_edit — appends the path if not already present,
updates the activity clock, then credits a fixed 1000 ms to the language. -/
def Session.record_file_edit (s : Session) (file_path language : String) (now : Int) : Session :=
  let s1 := if s.files_edited.contains file_path then s
            else { s with files_edited := s.files_edited ++ [file_path] }
  let s2 := s1.update_activity_time now
  { s2 with languages := entryAdd s2.languages language 1000 }

/-- Session::mark_idle — Active to Idle, opening a new idle interval;
a no-op in any other state. -/
def Session.mark_idle (s : Session) (now : Int) : Session :=
  if s.state = SessionState.Active then
    { s with state := SessionState.Idle, current_idle := some (IdlePeriod.new now) }
  else s

/-- Session::resume_from_idle — Idle to Active, closing and logging the open
idle interval and resetting the activity clock; a no-op in any other state. -/
def Session.resume_from_idle (s : Session) (now : Int) : Session :=
  if s.state = SessionState.Idle then
    let s1 :=
      match s.current_idle with
      | some idle =>
          { s with idle_periods := s.idle_periods ++ [idle.end' now], current_idle := none }
      | none => s
    { s1 with state := SessionState.Active, last_activity := now }
  else s

/-- Session::pause — sets the state to Paused unconditionally (the source has
no state guard on this method). -/
def Session.pause (s : Session) : Session :=
  { s with state := SessionState.Paused }

/-- Session::resume — Paused to Active, resetting the activity clock;
a no-op in any other state. -/
def Session.resume (s : Session) (now : Int) : Session :=
  if s.state = SessionState.Paused then
    { s with state := SessionState.Active, last_activity := now }
  else s

/-- Session::end — stamps ended_at, sets the state to Ended, and closes any
still-open idle interval. -/
def Session.end' (s : Session) (now : Int) : Session :=
  let s1 := { s with ended_at := some now, state := SessionState.Ended }
  match s1.current_idle with
  | some idle =>
      { s1 with idle_periods := s1.idle_periods ++ [idle.end' now], current_idle := none }
  | none => s1

/-- Session::add_commit — appends to the commit log. -/
def Session.add_commit (s : Session) (commit : CommitRef) : Session :=
  { s with commits := s.commits ++ [commit] }

/-- Session::total_duration_ms — ended_at minus started_at for a terminal
session, now minus started_at otherwise, cast as u64. -/
def Session.total_duration_ms (s : Session) (now : Int) : Nat :=
  asU64 (s.ended_at.getD now - s.started_at)

/-- Session::active_percentage — active over total time; 0 when the total is
0.  The f32 division is modelled exactly over Rat. -/
def Session.active_percentage (s : Session) (now : Int) : Rat :=
  let total := s.total_duration_ms now
  if total = 0 then 0 else (s.active_time_ms : Rat) / (total : Rat)

/-- Session::primary_language — Iterator::max_by_key over the language map:
among entries with the maximal time, the one iterated last wins.  Iteration
order is the association-list order (HashMap order in the source). -/
def Session.primary_language (s : Session) : Option String :=
  match s.languages with
  | [] => none
  | x :: t => some (t.foldl (fun acc p => if p.2 ≥ acc.2 then p else acc) x).1

/-- SessionStats from storage.rs: computed statistics for a session. -/
structure SessionStats where
  total_duration_ms : Nat
  active_percentage : Rat
  primary_language : Option String
  commit_count : Nat
deriving DecidableEq

/-- SessionStats::from_session (commit_count is `len() as u32`). -/
def SessionStats.from_session (session : Session) (now : Int) : SessionStats :=
  { total_duration_ms := session.total_duration_ms now,
    active_percentage := session.active_percentage now,
    primary_language := session.primary_language,
    commit_count := session.commits.length % 2 ^ 32 }

/-- StoredSession from storage.rs: persisted session data with its
computed statistics. -/
structure StoredSession where
  session : Session
  computed_stats : SessionStats
deriving DecidableEq

/-- StoredSession::new. -/
def StoredSession.new (session : Session) (now : Int) : StoredSession :=
  { session := session, computed_stats := SessionStats.from_session session now }

/-- DailyAggregate from storage.rs: aggregated statistics for one day.
The date is a UTC day number. -/
structure DailyAggregate where
  date : Int
  total_time_ms : Nat
  total_keystrokes : Nat
  files_count : Nat
  sessions_count : Nat
  commits_count : Nat
  languages : List (String × Nat)
deriving DecidableEq

/-- DailyAggregate::new. -/
def DailyAggregate.new (date : Int) : DailyAggregate :=
  { date := date, total_time_ms := 0, total_keystrokes := 0, files_count := 0,
    sessions_count := 0, commits_count := 0, languages := [] }

/-- Fold of HashMap-merge over a session's language list
(`for (lang, time) in &session.languages { entry += time }`). -/
def mergeLangs (m : List (String × Nat)) (src : List (String × Nat)) : List (String × Nat) :=
  src.foldl (fun acc p => entryAdd acc p.1 p.2) m

/-- DailyAggregate::add_session — additive merge of one session's
contributions; files_count adds the count of distinct files of the merging
session only (the HashSet in the source). -/
def DailyAggregate.add_session (d : DailyAggregate) (session : Session) : DailyAggregate :=
  { d with
    sessions_count := (d.sessions_count + 1) % 2 ^ 32,
    total_time_ms := (d.total_time_ms + session.active_time_ms) % 2 ^ 64,
    total_keystrokes := (d.total_keystrokes + session.keystroke_count) % 2 ^ 32,
    commits_count := (d.commits_count + session.commits.length % 2 ^ 32) % 2 ^ 32,
    files_count := (d.files_count + session.files_edited.dedup.length % 2 ^ 32) % 2 ^ 32,
    languages := mergeLangs d.languages session.languages }

/-- LifetimeStats from storage.rs: all-time statistics for a user.  The two
streak counters are u32 in the source; they are modelled as plain Nat, since
wrapping them would need 2^32 distinct aggregate days, beyond any
representable profile. -/
structure LifetimeStats where
  total_time_ms : Nat
  total_keystrokes : Nat
  total_sessions : Nat
  total_commits : Nat
  current_streak : Nat
  longest_streak : Nat
  languages : List (String × Nat)
deriving DecidableEq

/-- LifetimeStats::default. -/
def LifetimeStats.default : LifetimeStats :=
  { total_time_ms := 0, total_keystrokes := 0, total_sessions := 0,
    total_commits := 0, current_streak := 0, longest_streak := 0, languages := [] }

/-- LifetimeStats::update_from_session — additive fold of one session into
the lifetime totals. -/
def LifetimeStats.update_from_session (ls : LifetimeStats) (session : Session) : LifetimeStats :=
  { ls with
    total_time_ms := (ls.total_time_ms + session.active_time_ms) % 2 ^ 64,
    total_keystrokes := (ls.total_keystrokes + session.keystroke_count) % 2 ^ 64,
    total_sessions := (ls.total_sessions + 1) % 2 ^ 32,
    total_commits := (ls.total_commits + session.commits.length % 2 ^ 32) % 2 ^ 32,
    languages := mergeLangs ls.languages session.languages }

/-- Backward scan of LifetimeStats::recalculate_streaks, applied to the
reversed sorted date list: the loop `for i in (0..len-1).rev()` counts unit
gaps walking down from the most recent date and breaks at the first gap. -/
def descRun : List Int → Nat
  | a :: b :: t => if a - b = 1 then 1 + descRun (b :: t) else 0
  | _ => 0

/-- Forward scan of LifetimeStats::recalculate_streaks: running streak length
temp, reset to 1 on a gap, with the maximum tracked in longest; the final
answer takes max with the last run. -/
def longestScan : Int → Nat → Nat → List Int → Nat
  | _, temp, longest, [] => max longest temp
  | prev, temp, longest, d :: t =>
      if d - prev = 1 then longestScan d (temp + 1) (max longest (temp + 1)) t
      else longestScan d 1 longest t

/-- The longest-streak loop of recalculate_streaks over a sorted date list
(temp_streak starts at 1, longest_streak at 0). -/
def longestOf : List Int → Nat
  | [] => 0
  | a :: t => longestScan a 1 0 t

/-- The sort in recalculate_streaks (`sorted_dates.sort()`), ascending. -/
def sortDates (dates : List Int) : List Int := dates.insertionSort (· ≤ ·)

/-- Pure core of LifetimeStats::recalculate_streaks: given the reference
date `today` (Utc::now().date_naive() in the source) and the aggregate
dates, produce (current_streak, longest_streak). -/
def recalcStreaks (today : Int) (dates : List Int) : Nat × Nat :=
  if dates.isEmpty then (0, 0)
  else
    let sorted := sortDates dates
    let current : Nat :=
      match sorted.getLast? with
      | none => 0
      | some last => if today - last ≤ 1 then 1 + descRun sorted.reverse else 0
    (current, longestOf sorted)

/-- LifetimeStats::recalculate_streaks — stores the recomputed pair. -/
def LifetimeStats.recalculate_streaks (ls : LifetimeStats) (today : Int)
    (daily_aggregates : List DailyAggregate) : LifetimeStats :=
  let r := recalcStreaks today (daily_aggregates.map (fun d => d.date))
  { ls with current_streak := r.1, longest_streak := r.2 }

/-- GrowthProfile from storage.rs: the aggregate root. -/
structure GrowthProfile where
  id : String
  created_at : Int
  sessions : List StoredSession
  daily_aggregates : List DailyAggregate
  lifetime_stats : LifetimeStats
deriving DecidableEq

/-- GrowthProfile::new — the Uuid and creation instant are explicit inputs. -/
def GrowthProfile.new (id : String) (now : Int) : GrowthProfile :=
  { id := id, created_at := now, sessions := [], daily_aggregates := [],
    lifetime_stats := LifetimeStats.default }

/-- Conversion of a millisecond timestamp to its UTC calendar day number
(DateTime::date_naive), by floor division. -/
def dateNaive (ts : Int) : Int := Int.fdiv ts 86400000

/-- The locate-or-create step of GrowthProfile::add_session: merge into the
first aggregate with the session's date, or push a fresh aggregate at the
end when no date matches. -/
def addToDailies : List DailyAggregate → Int → Session → List DailyAggregate
  | [], date, session => [(DailyAggregate.new date).add_session session]
  | d :: t, date, session =>
      if d.date = date then d.add_session session :: t
      else d :: addToDailies t date session

/-- GrowthProfile::add_session — snapshot stats, fold into lifetime stats,
merge into the day's aggregate, recompute streaks over all aggregate dates,
append to the session log. -/
def GrowthProfile.add_session (p : GrowthProfile) (session : Session) (now : Int) : GrowthProfile :=
  let stored_session := StoredSession.new session now
  let ls := p.lifetime_stats.update_from_session session
  let session_date := dateNaive session.started_at
  let das := addToDailies p.daily_aggregates session_date session
  let ls2 := ls.recalculate_streaks (dateNaive now) das
  { p with sessions := p.sessions ++ [stored_session],
           daily_aggregates := das, lifetime_stats := ls2 }

/-- A sequence of add_session calls (each with its own call instant),
applied in order. -/
def applySessions (p : GrowthProfile) : List (Session × Int) → GrowthProfile
  | [] => p
  | (s, now) :: rest => applySessions (p.add_session s now) rest

/-- The ascending run of n consecutive day numbers starting at s:
the canonical enumeration of a set of strictly-consecutive UTC dates. -/
def chain (s : Int) : Nat → List Int
  | 0 => []
  | n + 1 => s :: chain (s + 1) n

/-!
Serde model.  serde_json::to_string / from_str are modelled at the level of
the JSON value the text denotes: an own small JSON AST.  Number-bearing
leaves keep the exact field value (serde_json prints u64/u32 exactly and
chrono prints timestamps and dates to RFC3339 text that parses back to the
identical instant, so the value level is faithful for every field type the
profile uses; f32 leaves carry the Rat model of the float).  Struct
encoding follows the serde derive: one object per struct, fields in
declaration order, #[serde(skip)] fields omitted on write and restored
from Default on read, Option as null-or-value, HashMap as an object. -/

/-- JSON values. -/
inductive Json where
  | null : Json
  | str : String → Json
  | int : Int → Json
  | rat : Rat → Json
  | arr : List Json → Json
  | obj : List (String × Json) → Json

/-- Parse an unsigned machine integer field (serde rejects a negative or
non-integer token for u64/u32). -/
def decodeU64 : Json → Option Nat
  | .int n => if n < 0 then none else some n.toNat
  | _ => none

/-- Encode Option of a timestamp (serde: None to null). -/
def encOptInt : Option Int → Json
  | none => .null
  | some t => .int t

/-- Decode Option of a timestamp. -/
def decOptInt : Json → Option (Option Int)
  | .null => some none
  | .int t => some (some t)
  | _ => none

/-- Encode Option of a string. -/
def encOptStr : Option String → Json
  | none => .null
  | some s => .str s

/-- Decode Option of a string. -/
def decOptStr : Json → Option (Option String)
  | .null => some none
  | .str s => some (some s)
  | _ => none

/-- Encode a list of strings as a JSON array. -/
def encStrList (l : List String) : Json := .arr (l.map .str)

/-- Decode a JSON array of strings. -/
def decStrListAux : List Json → Option (List String)
  | [] => some []
  | .str s :: t => (decStrListAux t).map (s :: ·)
  | _ => none

/-- Decode a list-of-strings field. -/
def decStrList : Json → Option (List String)
  | .arr xs => decStrListAux xs
  | _ => none

/-- Encode a language map (HashMap String u64) as a JSON object. -/
def encLangs (m : List (String × Nat)) : Json :=
  .obj (m.map fun p => (p.1, .int p.2))

/-- Decode the fields of a language-map object. -/
def decLangsAux : List (String × Json) → Option (List (String × Nat))
  | [] => some []
  | (k, .int v) :: t =>
      if v < 0 then none else (decLangsAux t).map ((k, v.toNat) :: ·)
  | _ => none

/-- Decode a language-map field. -/
def decLangs : Json → Option (List (String × Nat))
  | .obj fs => decLangsAux fs
  | _ => none

/-- Decode a JSON array elementwise with the given element decoder. -/
def decListAux (f : Json → Option α) : List Json → Option (List α)
  | [] => some []
  | j :: t =>
      match f j, decListAux f t with
      | some a, some l => some (a :: l)
      | _, _ => none

/-- Decode an array field elementwise. -/
def decList (f : Json → Option α) : Json → Option (List α)
  | .arr xs => decListAux f xs
  | _ => none

/-- Serde encoding of IdlePeriod. -/
def IdlePeriod.to_json (p : IdlePeriod) : Json :=
  .obj [("started_at", .int p.started_at), ("ended_at", encOptInt p.ended_at),
        ("duration_ms", .int p.duration_ms)]

/-- Serde decoding of IdlePeriod. -/
def IdlePeriod.from_json : Json → Option IdlePeriod
  | .obj [("started_at", .int s), ("ended_at", e), ("duration_ms", d)] =>
      match decOptInt e, decodeU64 d with
      | some e', some d' => some { started_at := s, ended_at := e', duration_ms := d' }
      | _, _ => none
  | _ => none

/-- Serde encoding of CommitRef. -/
def CommitRef.to_json (c : CommitRef) : Json :=
  .obj [("hash", .str c.hash), ("short_hash", .str c.short_hash),
        ("message", .str c.message), ("timestamp", .int c.timestamp),
        ("files_changed", encStrList c.files_changed)]

/-- Serde decoding of CommitRef. -/
def CommitRef.from_json : Json → Option CommitRef
  | .obj [("hash", .str h), ("short_hash", .str sh), ("message", .str m),
          ("timestamp", .int ts), ("files_changed", fc)] =>
      match decStrList fc with
      | some fc' => some { hash := h, short_hash := sh, message := m,
                           timestamp := ts, files_changed := fc' }
      | none => none
  | _ => none

/-- Serde encoding of Session: the #[serde(skip)] fields state,
last_activity and current_idle are not written. -/
def Session.to_json (s : Session) : Json :=
  .obj [("id", .int s.id), ("started_at", .int s.started_at),
        ("ended_at", encOptInt s.ended_at), ("active_time_ms", .int s.active_time_ms),
        ("keystroke_count", .int s.keystroke_count),
        ("files_edited", encStrList s.files_edited),
        ("languages", encLangs s.languages),
        ("idle_periods", .arr (s.idle_periods.map IdlePeriod.to_json)),
        ("commits", .arr (s.commits.map CommitRef.to_json))]

/-- Serde decoding of Session: the skipped fields are restored from Default
(state Active, last_activity the epoch, no open idle interval). -/
def Session.from_json : Json → Option Session
  | .obj [("id", i), ("started_at", .int st), ("ended_at", e),
          ("active_time_ms", a), ("keystroke_count", k), ("files_edited", fe),
          ("languages", lg), ("idle_periods", ip), ("commits", cm)] =>
      match decodeU64 i, decOptInt e, decodeU64 a, decodeU64 k, decStrList fe,
            decLangs lg, decList IdlePeriod.from_json ip, decList CommitRef.from_json cm with
      | some i', some e', some a', some k', some fe', some lg', some ip', some cm' =>
          some { id := i', started_at := st, ended_at := e', active_time_ms := a',
                 keystroke_count := k', files_edited := fe', languages := lg',
                 idle_periods := ip', commits := cm', state := SessionState.Active,
                 last_activity := 0, current_idle := none }
      | _, _, _, _, _, _, _, _ => none
  | _ => none

/-- Serde encoding of SessionStats. -/
def SessionStats.to_json (st : SessionStats) : Json :=
  .obj [("total_duration_ms", .int st.total_duration_ms),
        ("active_percentage", .rat st.active_percentage),
        ("primary_language", encOptStr st.primary_language),
        ("commit_count", .int st.commit_count)]

/-- Serde decoding of SessionStats. -/
def SessionStats.from_json : Json → Option SessionStats
  | .obj [("total_duration_ms", td), ("active_percentage", .rat ap),
          ("primary_language", pl), ("commit_count", cc)] =>
      match decodeU64 td, decOptStr pl, decodeU64 cc with
      | some td', some pl', some cc' =>
          some { total_duration_ms := td', active_percentage := ap,
                 primary_language := pl', commit_count := cc' }
      | _, _, _ => none
  | _ => none

/-- Serde encoding of StoredSession. -/
def StoredSession.to_json (st : StoredSession) : Json :=
  .obj [("session", st.session.to_json), ("computed_stats", st.computed_stats.to_json)]

/-- Serde decoding of StoredSession. -/
def StoredSession.from_json : Json → Option StoredSession
  | .obj [("session", sj), ("computed_stats", cj)] =>
      match Session.from_json sj, SessionStats.from_json cj with
      | some s, some c => some { session := s, computed_stats := c }
      | _, _ => none
  | _ => none

/-- Serde encoding of DailyAggregate. -/
def DailyAggregate.to_json (d : DailyAggregate) : Json :=
  .obj [("date", .int d.date), ("total_time_ms", .int d.total_time_ms),
        ("total_keystrokes", .int d.total_keystrokes), ("files_count", .int d.files_count),
        ("sessions_count", .int d.sessions_count), ("commits_count", .int d.commits_count),
        ("languages", encLangs d.languages)]

/-- Serde decoding of DailyAggregate. -/
def DailyAggregate.from_json : Json → Option DailyAggregate
  | .obj [("date", .int dt), ("total_time_ms", tt), ("total_keystrokes", tk),
          ("files_count", fc), ("sessions_count", sc), ("commits_count", cc),
          ("languages", lg)] =>
      match decodeU64 tt, decodeU64 tk, decodeU64 fc, decodeU64 sc,
            decodeU64 cc, decLangs lg with
      | some tt', some tk', some fc', some sc', some cc', some lg' =>
          some { date := dt, total_time_ms := tt', total_keystrokes := tk',
                 files_count := fc', sessions_count := sc', commits_count := cc',
                 languages := lg' }
      | _, _, _, _, _, _ => none
  | _ => none

/-- Serde encoding of LifetimeStats. -/
def LifetimeStats.to_json (ls : LifetimeStats) : Json :=
  .obj [("total_time_ms", .int ls.total_time_ms),
        ("total_keystrokes", .int ls.total_keystrokes),
        ("total_sessions", .int ls.total_sessions),
        ("total_commits", .int ls.total_commits),
        ("current_streak", .int ls.current_streak),
        ("longest_streak", .int ls.longest_streak),
        ("languages", encLangs ls.languages)]

/-- Serde decoding of LifetimeStats. -/
def LifetimeStats.from_json : Json → Option LifetimeStats
  | .obj [("total_time_ms", tt), ("total_keystrokes", tk), ("total_sessions", ts),
          ("total_commits", tc), ("current_streak", cs), ("longest_streak", lo),
          ("languages", lg)] =>
      match decodeU64 tt, decodeU64 tk, decodeU64 ts, decodeU64 tc,
            decodeU64 cs, decodeU64 lo, decLangs lg with
      | some tt', some tk', some ts', some tc', some cs', some lo', some lg' =>
          some { total_time_ms := tt', total_keystrokes := tk', total_sessions := ts',
                 total_commits := tc', current_streak := cs', longest_streak := lo',
                 languages := lg' }
      | _, _, _, _, _, _, _ => none
  | _ => none

/-- GrowthProfile::to_json, at the JSON-value level. -/
def GrowthProfile.to_json (p : GrowthProfile) : Json :=
  .obj [("id", .str p.id), ("created_at", .int p.created_at),
        ("sessions", .arr (p.sessions.map StoredSession.to_json)),
        ("daily_aggregates", .arr (p.daily_aggregates.map DailyAggregate.to_json)),
        ("lifetime_stats", p.lifetime_stats.to_json)]

/-- GrowthProfile::from_json, at the JSON-value level (a parse failure is
none, modelling the Err result). -/
def GrowthProfile.from_json : Json → Option GrowthProfile
  | .obj [("id", .str i), ("created_at", .int ca), ("sessions", sj),
          ("daily_aggregates", dj), ("lifetime_stats", lj)] =>
      match decList StoredSession.from_json sj, decList DailyAggregate.from_json dj,
            LifetimeStats.from_json lj with
      | some ss, some ds, some ls =>
          some { id := i, created_at := ca, sessions := ss,
                 daily_aggregates := ds, lifetime_stats := ls }
      | _, _, _ => none
  | _ => none

/-- The effect of a persistence round trip on a Session: every persisted
field is kept, the three skipped transient fields come back as defaults. -/
def scrubSession (s : Session) : Session :=
  { s with state := SessionState.Active, last_activity := 0, current_idle := none }

/-- The effect of a persistence round trip on a StoredSession. -/
def scrubStored (st : StoredSession) : StoredSession :=
  { st with session := scrubSession st.session }

/-- The effect of a persistence round trip on a GrowthProfile. -/
def scrubProfile (p : GrowthProfile) : GrowthProfile :=
  { p with sessions := p.sessions.map scrubStored }

/-- Equality of two sessions on all persisted (non-skipped) fields. -/
def sessionPersistedEq (a b : Session) : Prop :=
  a.id = b.id ∧ a.started_at = b.started_at ∧ a.ended_at = b.ended_at ∧
  a.active_time_ms = b.active_time_ms ∧ a.keystroke_count = b.keystroke_count ∧
  a.files_edited = b.files_edited ∧ a.languages = b.languages ∧
  a.idle_periods = b.idle_periods ∧ a.commits = b.commits

/-- Equality of two stored sessions on all persisted fields. -/
def storedPersistedEq (a b : StoredSession) : Prop :=
  sessionPersistedEq a.session b.session ∧ a.computed_stats = b.computed_stats

/-- Equality of two profiles on all persisted fields. -/
def profilePersistedEq (a b : GrowthProfile) : Prop :=
  a.id = b.id ∧ a.created_at = b.created_at ∧
  List.Forall₂ storedPersistedEq a.sessions b.sessions ∧
  a.daily_aggregates = b.daily_aggregates ∧ a.lifetime_stats = b.lifetime_stats

/-!
Registry layer of lib.rs: the process-global HashMap from session handle
to Session, modelled as an association list, and the handle-based
operations exposed to the host.
-/

/-- The session registry of lib.rs (SESSION_REGISTRY). -/
abbrev Registry := List (Nat × Session)

/-- HashMap::get / get_mut lookup by handle. -/
def Registry.lookup : Registry → Nat → Option Session
  | [], _ => none
  | (k, s) :: t, h => if k = h then some s else Registry.lookup t h

/-- In-place mutation through get_mut: replace the value at the handle. -/
def Registry.set : Registry → Nat → Session → Registry
  | [], _, _ => []
  | (k, s) :: t, h, s' => if k = h then (k, s') :: t else (k, s) :: Registry.set t h s'

/-- Text form of serde_json::to_string(&SessionStats) on the found branch of
end_session (the Rat field stands in for the printed f32). -/
def sessionStatsToString (st : SessionStats) : String :=
  "\x7b\"total_duration_ms\":" ++ toString st.total_duration_ms ++
  ",\"active_percentage\":" ++ toString st.active_percentage ++
  ",\"primary_language\":" ++
    (match st.primary_language with
     | none => "null"
     | some l => "\"" ++ l ++ "\"") ++
  ",\"commit_count\":" ++ toString st.commit_count ++ "\x7d"

/-- lib.rs record_keystroke(handle): forwards to the session when the handle
is present; otherwise the if-let falls through and nothing happens. -/
def recordKeystrokeOp (r : Registry) (handle : Nat) (now : Int) : Registry :=
  match r.lookup handle with
  | some s => r.set handle (s.record_keystroke now)
  | none => r

/-- lib.rs end_session(handle): ends the session and returns its stats JSON
text when the handle is present; otherwise returns the literal text of an
empty JSON object. -/
def endSessionOp (r : Registry) (handle : Nat) (now : Int) : Registry × String :=
  match r.lookup handle with
  | some s =>
      let s2 := s.end' now
      (r.set handle s2, sessionStatsToString (SessionStats.from_session s2 now))
  | none => (r, "\x7b\x7d")

/-!
Theorems.  First the helper lemmas about the streak computation on a run of
consecutive dates, then the claim theorems.
-/

theorem chain_append (s : Int) (n : Nat) : chain s (n + 1) = chain s n ++ [s + n] := by
  induction n generalizing s with
  | zero => simp [chain]
  | succ m ih =>
      show s :: chain (s + 1) (m + 1) = (s :: chain (s + 1) m) ++ [s + (m + 1 : Nat)]
      rw [ih (s + 1)]
      have hc : s + 1 + (m : Int) = s + ((m + 1 : Nat) : Int) := by push_cast; omega
      rw [hc]
      simp

theorem mem_chain_ge {x s : Int} {n : Nat} (h : x ∈ chain s n) : s ≤ x := by
  induction n generalizing s with
  | zero => simp [chain] at h
  | succ m ih =>
      rcases List.mem_cons.mp h with h1 | h2
      · omega
      · have := ih h2; omega

theorem chain_sorted (s : Int) (n : Nat) : List.Sorted (· ≤ ·) (chain s n) := by
  induction n generalizing s with
  | zero => simp [chain]
  | succ m ih =>
      refine List.sorted_cons.mpr ⟨fun b hb => ?_, ih (s + 1)⟩
      have := mem_chain_ge hb; omega

theorem chain_ne_nil (s : Int) {n : Nat} (h : 0 < n) : chain s n ≠ [] := by
  cases n with
  | zero => omega
  | succ m => simp [chain]

theorem sortDates_eq_chain {l : List Int} {s : Int} {n : Nat}
    (h : l.Perm (chain s n)) : sortDates l = chain s n :=
  List.eq_of_perm_of_sorted ((List.perm_insertionSort _ l).trans h)
    (List.sorted_insertionSort _ l) (chain_sorted s n)

theorem getLast?_chain (s : Int) (n : Nat) :
    (chain s (n + 1)).getLast? = some (s + n) := by
  rw [chain_append]
  exact List.getLast?_concat _

theorem descRun_chain (n : Nat) : ∀ s : Int, descRun (chain s (n + 1)).reverse = n := by
  induction n with
  | zero => intro s; simp [chain, descRun]
  | succ m ih =>
      intro s
      have h2 : (chain s (m + 2)).reverse
          = (s + (m + 1 : Nat)) :: (chain s (m + 1)).reverse := by
        rw [chain_append s (m + 1)]; simp
      have h1 : (chain s (m + 1)).reverse = (s + m) :: (chain s m).reverse := by
        rw [chain_append s m]; simp
      rw [h2, h1, descRun]
      have hd : s + (m + 1 : Nat) - (s + m) = 1 := by push_cast; omega
      rw [if_pos hd, ← h1, ih s]
      omega

theorem longestScan_chain (m : Nat) :
    ∀ (prev : Int) (temp longest : Nat),
      longestScan prev temp longest (chain (prev + 1) m) = max longest (temp + m) := by
  induction m with
  | zero => intro prev temp longest; simp [chain, longestScan]
  | succ k ih =>
      intro prev temp longest
      show longestScan prev temp longest ((prev + 1) :: chain (prev + 1 + 1) k)
          = max longest (temp + (k + 1))
      rw [longestScan, if_pos (by omega)]
      rw [ih (prev + 1) (temp + 1) (max longest (temp + 1))]
      omega

theorem longestOf_chain (s : Int) (n : Nat) : longestOf (chain s (n + 1)) = n + 1 := by
  show longestScan s 1 0 (chain (s + 1) n) = n + 1
  rw [longestScan_chain n s 1 0]
  omega

/-- Claim C2: for every non-empty set of pairwise-distinct strictly
consecutive UTC dates whose latest date is the reference date today, the
streak recomputation of recalculate_streaks returns current_streak =
longest_streak = the cardinality of the set.  The set is any enumeration
(permutation) of the run chain s n, and today = s + n - 1 is its latest
element. -/
theorem c2_consecutive_run_streaks (l : List Int) (s : Int) (n : Nat)
    (hn : 0 < n) (hperm : l.Perm (chain s n)) :
    recalcStreaks (s + n - 1) l = (n, n) := by
  cases n with
  | zero => omega
  | succ m =>
      have hne : l ≠ [] := by
        intro hl
        exact chain_ne_nil s hn (List.Perm.nil_eq (hl ▸ hperm)).symm
      have hsort : sortDates l = chain s (m + 1) := sortDates_eq_chain hperm
      have hlast := getLast?_chain s m
      have hdesc := descRun_chain m s
      have hlong := longestOf_chain s m
      rw [recalcStreaks, if_neg (by simpa using hne)]
      simp only [hsort, hlast, hdesc, hlong]
      have hcond : s + ((m + 1 : Nat) : Int) - 1 - (s + m) ≤ 1 := by push_cast; omega
      rw [if_pos hcond]
      simp [Nat.add_comm]

/-- Witness for C2 at a concrete three-day run 10, 11, 12 with today = 12,
listed out of order. -/
theorem c2_consecutive_run_streaks_witness :
    0 < 3 ∧ ([12, 10, 11] : List Int).Perm (chain 10 3) ∧
    recalcStreaks ((10 : Int) + (3 : Nat) - 1) [12, 10, 11] = (3, 3) :=
  ⟨by decide, by decide, c2_consecutive_run_streaks [12, 10, 11] 10 3 (by decide) (by decide)⟩

/-- Claim C1 counterexample: on the date set of scenario B (2024-06-05 is
day 19879, 2024-06-10 is day 19884, today is day 19884) the code does not
produce current_streak = 0 with longest_streak = 1: the most recent date is
today itself, so the current streak starts at 1. -/
theorem c1_scenario_b_counterexample :
    ¬ ((recalcStreaks 19884 [19879, 19884]).1 = 0 ∧
       (recalcStreaks 19884 [19879, 19884]).2 = 1) := by decide

/-- Claim C1 as amended: on the scenario-B date set the streak calculation
produces current_streak = 1 and longest_streak = 1. -/
theorem c1_scenario_b_amended :
    recalcStreaks 19884 [19879, 19884] = (1, 1) := by decide

/-- Claim C3, failing input: Session::pause writes the Paused state with no
guard, so invoking pause on an Ended session moves it out of the terminal
state, contradicting the specified terminality of Ended. -/
theorem c3_pause_escapes_ended :
    ((Session.new 1 0).end' 50).state = SessionState.Ended ∧
    (((Session.new 1 0).end' 50).pause).state = SessionState.Paused ∧
    SessionState.Paused ≠ SessionState.Ended := by decide

/-- Claim C4, failing input: on a session in the Idle state,
record_keystroke still increments keystroke_count, and record_file_edit
still appends the file and credits the language; only active_time_ms stays
unchanged (the Active guard sits solely in update_activity_time). -/
theorem c4_mutation_outside_active :
    ((Session.new 1 0).mark_idle 100).state ≠ SessionState.Active ∧
    ((Session.new 1 0).mark_idle 100).keystroke_count = 0 ∧
    (((Session.new 1 0).mark_idle 100).record_keystroke 200).keystroke_count = 1 ∧
    ((Session.new 1 0).mark_idle 100).files_edited = [] ∧
    (((Session.new 1 0).mark_idle 100).record_file_edit "main.rs" "rust" 200).files_edited
      = ["main.rs"] ∧
    ((Session.new 1 0).mark_idle 100).languages = [] ∧
    (((Session.new 1 0).mark_idle 100).record_file_edit "main.rs" "rust" 200).languages
      = [("rust", 1000)] ∧
    (((Session.new 1 0).mark_idle 100).record_keystroke 200).active_time_ms
      = ((Session.new 1 0).mark_idle 100).active_time_ms := by decide

/-- Claim C5, failing input: on a handle absent from the registry the
operations leave the registry unchanged but surface no NotFound failure:
record_keystroke falls through its if-let returning unit, and end_session
returns the plain text of an empty JSON object, indistinguishable from an
error-free empty result. -/
theorem c5_unknown_handle_silent :
    recordKeystrokeOp [(1, Session.new 1 0)] 2 0 = [(1, Session.new 1 0)] ∧
    endSessionOp [(1, Session.new 1 0)] 2 0 = ([(1, Session.new 1 0)], "\x7b\x7d") := by
  decide

/-- Claim C9, failing input: primary_language takes max_by_key over the
language map's iteration order, so with languages alpha and beta tied at
1000 ms the winner flips with the iteration order of the same map contents
— the tie-break is not a deterministic function of the session value. -/
theorem c9_tie_break_order_dependent :
    ({ Session.new 1 0 with
        languages := [("alpha", 1000), ("beta", 1000)] } : Session).primary_language
      = some "beta" ∧
    ({ Session.new 1 0 with
        languages := [("beta", 1000), ("alpha", 1000)] } : Session).primary_language
      = some "alpha" ∧
    ([("alpha", 1000), ("beta", 1000)] : List (String × Nat)).Perm
      [("beta", 1000), ("alpha", 1000)] := by
  refine ⟨rfl, rfl, ?_⟩
  decide

theorem decodeU64_nat (n : Nat) : decodeU64 (.int n) = some n := by
  simp [decodeU64]

theorem decOptInt_enc (o : Option Int) : decOptInt (encOptInt o) = some o := by
  cases o <;> rfl

theorem decOptStr_enc (o : Option String) : decOptStr (encOptStr o) = some o := by
  cases o <;> rfl

theorem decStrList_enc (l : List String) : decStrList (encStrList l) = some l := by
  rw [encStrList, decStrList]
  induction l with
  | nil => rfl
  | cons a t ih => simp [decStrListAux, ih]

theorem decLangs_enc (m : List (String × Nat)) : decLangs (encLangs m) = some m := by
  rw [encLangs, decLangs]
  induction m with
  | nil => rfl
  | cons a t ih => simp [decLangsAux, ih]

theorem decListAux_map {α : Type} (f : Json → Option α) {β : Type} (g : β → Json)
    (h' : β → α) (hp : ∀ x, f (g x) = some (h' x)) :
    ∀ l : List β, decListAux f (l.map g) = some (l.map h')
  | [] => rfl
  | a :: t => by simp [decListAux, hp a, decListAux_map f g h' hp t]

theorem idle_roundtrip (p : IdlePeriod) : IdlePeriod.from_json p.to_json = some p := by
  simp [IdlePeriod.to_json, IdlePeriod.from_json, decOptInt_enc, decodeU64_nat]

theorem commit_roundtrip (c : CommitRef) : CommitRef.from_json c.to_json = some c := by
  simp [CommitRef.to_json, CommitRef.from_json, decStrList_enc]

theorem session_roundtrip (s : Session) :
    Session.from_json s.to_json = some (scrubSession s) := by
  simp [Session.to_json, Session.from_json, decodeU64_nat, decOptInt_enc,
    decStrList_enc, decLangs_enc, decList,
    decListAux_map IdlePeriod.from_json IdlePeriod.to_json id idle_roundtrip,
    decListAux_map CommitRef.from_json CommitRef.to_json id commit_roundtrip,
    scrubSession]

theorem stats_roundtrip (st : SessionStats) :
    SessionStats.from_json st.to_json = some st := by
  simp [SessionStats.to_json, SessionStats.from_json, decodeU64_nat, decOptStr_enc]

theorem stored_roundtrip (st : StoredSession) :
    StoredSession.from_json st.to_json = some (scrubStored st) := by
  simp [StoredSession.to_json, StoredSession.from_json, session_roundtrip,
    stats_roundtrip, scrubStored]

theorem daily_roundtrip (d : DailyAggregate) :
    DailyAggregate.from_json d.to_json = some d := by
  simp [DailyAggregate.to_json, DailyAggregate.from_json, decodeU64_nat, decLangs_enc]

theorem lifetime_roundtrip (ls : LifetimeStats) :
    LifetimeStats.from_json ls.to_json = some ls := by
  simp [LifetimeStats.to_json, LifetimeStats.from_json, decodeU64_nat, decLangs_enc]

theorem scrub_persistedEq (p : GrowthProfile) : profilePersistedEq (scrubProfile p) p := by
  refine ⟨rfl, rfl, ?_, rfl, rfl⟩
  show List.Forall₂ storedPersistedEq (p.sessions.map scrubStored) p.sessions
  induction p.sessions with
  | nil => exact List.Forall₂.nil
  | cons a t ih =>
      refine List.Forall₂.cons ?_ ih
      exact ⟨⟨rfl, rfl, rfl, rfl, rfl, rfl, rfl, rfl, rfl⟩, rfl⟩

/-- Claim C7: serializing a GrowthProfile and deserializing the result
succeeds and yields a profile equal to the original in every persisted
field: the id, the creation instant, each stored session (all nine
persisted session fields plus the computed stats snapshot), the daily
aggregates and the lifetime stats.  Only the three serde-skipped transient
session fields come back as defaults. -/
theorem c7_profile_json_roundtrip (p : GrowthProfile) :
    GrowthProfile.from_json p.to_json = some (scrubProfile p) ∧
    profilePersistedEq (scrubProfile p) p := by
  refine ⟨?_, scrub_persistedEq p⟩
  simp [GrowthProfile.to_json, GrowthProfile.from_json, lifetime_roundtrip, decList,
    decListAux_map StoredSession.from_json StoredSession.to_json scrubStored stored_roundtrip,
    decListAux_map DailyAggregate.from_json DailyAggregate.to_json id daily_roundtrip,
    scrubProfile]

theorem date_add_session (d : DailyAggregate) (sess : Session) :
    (d.add_session sess).date = d.date := rfl

theorem addToDailies_dates (date : Int) (sess : Session) :
    ∀ l : List DailyAggregate,
      (addToDailies l date sess).map (fun d => d.date)
        = if date ∈ l.map (fun d => d.date) then l.map (fun d => d.date)
          else l.map (fun d => d.date) ++ [date]
  | [] => by simp [addToDailies, DailyAggregate.new, DailyAggregate.add_session]
  | d :: t => by
      by_cases hd : d.date = date
      · simp [addToDailies, hd, date_add_session]
      · have ih := addToDailies_dates date sess t
        by_cases hm : date ∈ t.map (fun d => d.date) <;>
          simp [addToDailies, hd, Ne.symm hd, hm, ih]

theorem addToDailies_nodup {l : List DailyAggregate} (date : Int) (sess : Session)
    (h : (l.map (fun d => d.date)).Nodup) :
    ((addToDailies l date sess).map (fun d => d.date)).Nodup := by
  rw [addToDailies_dates]
  by_cases hm : date ∈ l.map (fun d => d.date)
  · rwa [if_pos hm]
  · rw [if_neg hm]
    simp [List.nodup_append, h, hm]

theorem add_session_dates_nodup (p : GrowthProfile) (sess : Session) (now : Int)
    (h : (p.daily_aggregates.map (fun d => d.date)).Nodup) :
    (((p.add_session sess now).daily_aggregates).map (fun d => d.date)).Nodup := by
  simpa [GrowthProfile.add_session] using
    addToDailies_nodup (dateNaive sess.started_at) sess h

theorem applySessions_dates_nodup :
    ∀ (ops : List (Session × Int)) (p : GrowthProfile),
      (p.daily_aggregates.map (fun d => d.date)).Nodup →
      (((applySessions p ops).daily_aggregates).map (fun d => d.date)).Nodup
  | [], _, h => h
  | (s, now) :: rest, p, h =>
      applySessions_dates_nodup rest (p.add_session s now)
        (add_session_dates_nodup p s now h)

/-- Claim C8: in every profile reachable from a fresh profile by any
sequence of add_session calls, the dates of the daily aggregates are
pairwise distinct (at most one DailyAggregate per UTC calendar date). -/
theorem c8_daily_dates_nodup (id : String) (created : Int)
    (ops : List (Session × Int)) :
    (((applySessions (GrowthProfile.new id created) ops).daily_aggregates).map
      (fun d => d.date)).Nodup := by
  refine applySessions_dates_nodup ops (GrowthProfile.new id created) ?_
  simp [GrowthProfile.new]

/-- Claim C10: Session::end stamps ended_at unconditionally, so a second
end call on an already-Ended session overwrites ended_at with the new
instant (changing total_duration_ms accordingly) instead of keeping the
first end timestamp. -/
theorem c10_end_overwrites (s : Session) (t1 t2 : Int)
    (_hE : s.state = SessionState.Ended) (_h1 : s.ended_at = some t1) (hlt : t1 < t2) :
    (s.end' t2).ended_at = some t2 ∧ (s.end' t2).ended_at ≠ some t1 ∧
    ∀ now, (s.end' t2).total_duration_ms now = asU64 (t2 - s.started_at) := by
  have he : (s.end' t2).ended_at = some t2 := by
    cases hc : s.current_idle <;> simp [Session.end', hc]
  have hs : (s.end' t2).started_at = s.started_at := by
    cases hc : s.current_idle <;> simp [Session.end', hc]
  refine ⟨he, ?_, ?_⟩
  · rw [he]
    intro hcontra
    have : t2 = t1 := by simpa using hcontra
    omega
  · intro now
    rw [Session.total_duration_ms, he, hs]
    rfl

/-- Witness for C10: a session ended at time 10 and ended again at time 20
reports ended_at 20, not 10. -/
theorem c10_end_overwrites_witness :
    (((Session.new 1 0).end' 10).end' 20).ended_at = some 20 ∧
    (((Session.new 1 0).end' 10).end' 20).ended_at ≠ some 10 ∧
    ∀ now, (((Session.new 1 0).end' 10).end' 20).total_duration_ms now
      = asU64 (20 - ((Session.new 1 0).end' 10).started_at) :=
  c10_end_overwrites ((Session.new 1 0).end' 10) 10 20 (by decide) (by decide) (by decide)

/-- Claim C6: while the session is Active, record_keystroke and
record_file_edit advance active_time_ms by exactly the elapsed gap since
last_activity when that gap is under 5000 ms, advance it by nothing when
the gap is 5000 ms or more, and refresh last_activity in both cases.
The side conditions keep the i64/u64 casts of the source in range: the
clock does not run backwards and the quantities fit the machine widths. -/
theorem c6_activity_gap_accrual (s : Session) (now : Int) (f lang : String)
    (hA : s.state = SessionState.Active)
    (hle : s.last_activity ≤ now)
    (hsmall : now - s.last_activity < 2 ^ 63)
    (hcap : s.active_time_ms + (now - s.last_activity).toNat < 2 ^ 64) :
    ((now - s.last_activity).toNat < 5000 →
       (s.record_keystroke now).active_time_ms
         = s.active_time_ms + (now - s.last_activity).toNat ∧
       (s.record_file_edit f lang now).active_time_ms
         = s.active_time_ms + (now - s.last_activity).toNat) ∧
    (5000 ≤ (now - s.last_activity).toNat →
       (s.record_keystroke now).active_time_ms = s.active_time_ms ∧
       (s.record_file_edit f lang now).active_time_ms = s.active_time_ms) ∧
    (s.record_keystroke now).last_activity = now ∧
    (s.record_file_edit f lang now).last_activity = now := by
  have hdelta : asU64 (now - s.last_activity) = (now - s.last_activity).toNat := by
    rw [asU64, Int.emod_eq_of_lt (by omega) (by omega)]
  have hmod : (s.active_time_ms + (now - s.last_activity).toNat) % 2 ^ 64
      = s.active_time_ms + (now - s.last_activity).toNat :=
    Nat.mod_eq_of_lt hcap
  refine ⟨fun h => ⟨?_, ?_⟩, fun h => ⟨?_, ?_⟩, ?_, ?_⟩
  · simp [Session.record_keystroke, Session.update_activity_time, hA, hdelta, h]
    omega
  · by_cases hf : f ∈ s.files_edited <;>
      simp [Session.record_file_edit, Session.update_activity_time, hA, hdelta, hf, h] <;>
      omega
  · simp [Session.record_keystroke, Session.update_activity_time, hA, hdelta,
      Nat.not_lt.mpr h]
  · by_cases hf : f ∈ s.files_edited <;>
      simp [Session.record_file_edit, Session.update_activity_time, hA, hdelta, hf,
        Nat.not_lt.mpr h]
  · simp [Session.record_keystroke, Session.update_activity_time, hA]
  · by_cases hf : f ∈ s.files_edited <;>
      simp [Session.record_file_edit, Session.update_activity_time, hA, hf]

/-- Witness for C6 at a fresh session, a 3000 ms gap, and a file edit. -/
theorem c6_activity_gap_accrual_witness :
    (((3000 : Int) - (Session.new 1 0).last_activity).toNat < 5000 →
       ((Session.new 1 0).record_keystroke 3000).active_time_ms
         = (Session.new 1 0).active_time_ms
           + ((3000 : Int) - (Session.new 1 0).last_activity).toNat ∧
       ((Session.new 1 0).record_file_edit "main.rs" "rust" 3000).active_time_ms
         = (Session.new 1 0).active_time_ms
           + ((3000 : Int) - (Session.new 1 0).last_activity).toNat) ∧
    (5000 ≤ ((3000 : Int) - (Session.new 1 0).last_activity).toNat →
       ((Session.new 1 0).record_keystroke 3000).active_time_ms
         = (Session.new 1 0).active_time_ms ∧
       ((Session.new 1 0).record_file_edit "main.rs" "rust" 3000).active_time_ms
         = (Session.new 1 0).active_time_ms) ∧
    ((Session.new 1 0).record_keystroke 3000).last_activity = 3000 ∧
    ((Session.new 1 0).record_file_edit "main.rs" "rust" 3000).last_activity = 3000 :=
  c6_activity_gap_accrual (Session.new 1 0) 3000 "main.rs" "rust"
    (by decide) (by decide) (by decide) (by decide)

end Dendrite
